import Mathlib

/-!
# Verification of the AI-Software-Development orchestration core

This file gives a shallow embedding of the state/coordination core of the
repository (the custom tools in `src/tools/custom_tools.py`, the agent role
configurations in `main.py` and the agent classes, and the agent factory
`create_software_dev_agent` in `src/main.py`), and proves or refutes the
frozen specification claims about it.

JSON values are modelled by the inductive `JVal`; Python dictionaries by
association lists (`Dict`) with Python `dict` semantics: lookup returns the
first binding, `dict.update` overwrites an existing key in place and appends
a missing key at the end.
-/

/-- A JSON value, as produced by `json.load`. -/
inductive JVal where
  | null : JVal
  | bool : Bool → JVal
  | num : Int → JVal
  | str : String → JVal
  | arr : List JVal → JVal
  | obj : List (String × JVal) → JVal

/-- A Python dictionary with `String` keys, as an association list. -/
abbrev Dict (V : Type) := List (String × V)

/-- `d.get(k)`: the first binding of `k` in `d`, if any. -/
def dget {V : Type} : Dict V → String → Option V
  | [], _ => none
  | (k', v) :: rest, k => if k' = k then some v else dget rest k

/-- `d.get(k, dflt)`: lookup with a default. -/
def dgetD {V : Type} (d : Dict V) (k : String) (dflt : V) : V :=
  (dget d k).getD dflt

/-- `k in d`: whether `d` has a binding for `k`. -/
def hasKey {V : Type} : Dict V → String → Bool
  | [], _ => false
  | (k', _) :: rest, k => k' = k || hasKey rest k

/-- Write a single key (Python `d[k] = v`): overwrite the binding in place if
the key is present, append a new binding at the end otherwise.  (Python
dictionaries have unique keys, so replacing the first binding is exact.) -/
def dsetOne {V : Type} : Dict V → String → V → Dict V
  | [], k, v => [(k, v)]
  | (k', v') :: rest, k, v =>
    if k' = k then (k, v) :: rest else (k', v') :: dsetOne rest k v

/-- `d.update(o)`: write every binding of `o` into `d`, in order. -/
def dupdate {V : Type} (d o : Dict V) : Dict V :=
  o.foldl (fun acc kv => dsetOne acc kv.1 kv.2) d

/-- Whether the keys of a dictionary are pairwise distinct.  Every dictionary
that arrives from Python satisfies this (Python `dict` keys are unique). -/
def nodupKeys {V : Type} : Dict V → Bool
  | [] => true
  | (k, _) :: rest => !hasKey rest k && nodupKeys rest

/-- The possible contents of the persisted state file `.orchestration/state.json`
as seen by `update_orchestration_state`: the file may be absent, may fail to
parse, or may parse to a JSON value. -/
inductive FileContent where
  | absent : FileContent
  | corrupt : FileContent
  | parsed : JVal → FileContent

/-- The Python fragment
`existing_artifacts = dict(state.get("artifacts", {})); if artifacts:
existing_artifacts.update(artifacts)`: the delta is merged key-by-key only
when the `artifacts` argument is truthy (not `None` and not the empty dict).
-/
def mergedArtifacts (existing0 : Dict JVal) (artifacts : Option (Dict JVal)) :
    Dict JVal :=
  match artifacts with
  | some a => if a.isEmpty then existing0 else dupdate existing0 a
  | none => existing0

/-- The Python expression `arg or state.get(key, [])` for the `issues` and
`blocked_on` arguments: a truthy (non-`None`, non-empty) list replaces the
stored value, anything else keeps the stored value (defaulting to `[]`). -/
def replacedList (state : Dict JVal) (key : String)
    (arg : Option (List JVal)) : JVal :=
  match arg with
  | some l => if l.isEmpty then dgetD state key (.arr []) else .arr l
  | none => dgetD state key (.arr [])

/-- Shallow embedding of `update_orchestration_state` from
`src/tools/custom_tools.py` (lines 125-158).  The function reads the persisted
file (absent or unparseable content yields the empty dict), copies the stored
`artifacts` object, merges the `artifacts` argument into it when the argument
is truthy (a non-`None`, non-empty dict), then overwrites the four keys
`phase`, `artifacts`, `issues` and `blocked_on` in the loaded state, where
`issues`/`blocked_on` use Python truthiness (`issues or state.get("issues", [])`).
`none` models a raised exception (`state.get` on a non-dict top level, or
`dict(...)` applied to a non-dict `artifacts` value). -/
def update_orchestration_state (file : FileContent) (phase : String)
    (artifacts : Option (Dict JVal)) (issues : Option (List JVal))
    (blocked_on : Option (List JVal)) : Option (Dict JVal) :=
  let state? : Option (Dict JVal) :=
    match file with
    | .absent => some []
    | .corrupt => some []
    | .parsed (.obj kvs) => some kvs
    | .parsed _ => none
  match state? with
  | none => none
  | some state =>
    match dgetD state "artifacts" (.obj []) with
    | .obj existing0 =>
      some (dupdate state
        [("phase", .str phase),
         ("artifacts", .obj (mergedArtifacts existing0 artifacts)),
         ("issues", replacedList state "issues" issues),
         ("blocked_on", replacedList state "blocked_on" blocked_on)])
    | _ => none

/-- The file content persisted by a successful `update_orchestration_state`
call: the returned dict, serialised. -/
def persistedAfter (s : Dict JVal) : FileContent :=
  .parsed (.obj s)

/-! ## Structure validator (`validate_project_structure`) -/

/-- The result dictionary of `validate_project_structure`: the code returns
either `{"valid": False, "error": ...}` for an unknown size, or
`{"valid": ..., "expected": ..., "missing": ..., "project_size": ...}`. -/
inductive ValidationResult where
  | unknownSize (valid : Bool) (error : String)
  | report (valid : Bool) (expected : List String) (missing : List String)
      (project_size : String)
deriving Repr, DecidableEq

/-- The static required-path table of `validate_project_structure`
(`src/tools/custom_tools.py`, lines 95-111). -/
def required_files : Dict (List String) :=
  [("small",
    ["README.md", "TODO.md", "docs/architecture.md", "openapi.yaml",
     "Dockerfile"]),
   ("medium",
    ["README.md", "TODO.md", "design/", "services/", "docker-compose.yaml",
     "Dockerfile"]),
   ("large",
    ["README.md", "TODO.md", "docs/features/", "services/",
     "docker-compose.yaml", "ci/", "k8s/"])]

/-- Shallow embedding of `validate_project_structure`
(`src/tools/custom_tools.py`, lines 92-122).  The filesystem is modelled by
the predicate `fs_exists` (`os.path.exists`); the unknown-size branch returns
before any filesystem test is made, which the embedding reflects by not
consulting `fs_exists` in that branch. -/
def validate_project_structure (fs_exists : String → Bool)
    (project_size : String) : ValidationResult :=
  match dget required_files project_size with
  | none => .unknownSize false ("Unknown project size: " ++ project_size)
  | some expected =>
    let missing := expected.filter (fun p => !fs_exists p)
    .report (missing.length == 0) expected missing project_size

example :
    validate_project_structure (fun _ => false) "huge" =
      .unknownSize false "Unknown project size: huge" := by decide

example :
    validate_project_structure (fun p => p == "README.md") "small" =
      .report false
        ["README.md", "TODO.md", "docs/architecture.md", "openapi.yaml",
         "Dockerfile"]
        ["TODO.md", "docs/architecture.md", "openapi.yaml", "Dockerfile"]
        "small" := by decide

/-! ## Search tool (`internet_search` / `get_tavily_client`) -/

/-- Shallow embedding of `get_tavily_client` (`src/tools/custom_tools.py`,
lines 54-69).  `api_key` models `os.environ.get("TAVILY_API_KEY")` (absent or
present; Python treats the empty string as falsy).  `import_failure` models a
failing late import of the `tavily` package (`RuntimeError` branch); `.ok ()`
stands for a successfully constructed client.  `.error` models a raised
exception carrying `str(e)`. -/
def get_tavily_client (api_key : Option String)
    (import_failure : Option String) : Except String Unit :=
  match api_key with
  | none => .error "TAVILY_API_KEY environment variable is required"
  | some key =>
    if key = "" then .error "TAVILY_API_KEY environment variable is required"
    else
      match import_failure with
      | some e => .error ("Failed to import tavily client: " ++ e)
      | none => .ok ()

/-- Shallow embedding of `internet_search` (`src/tools/custom_tools.py`,
lines 72-89).  `provider_search` models the external `client.search(...)`
call: either a provider result (returned unmodified) or a raised exception
message.  The surrounding `try/except` converts every raised exception `e`
into `{"error": f"Search failed: {str(e)}", "results": []}`; the embedding is
a total function, so no failure escapes as an exception. -/
def internet_search (api_key : Option String) (import_failure : Option String)
    (provider_search : Except String JVal) : JVal :=
  match get_tavily_client api_key import_failure with
  | .error e =>
    .obj [("error", .str ("Search failed: " ++ e)), ("results", .arr [])]
  | .ok _ =>
    match provider_search with
    | .ok result => result
    | .error e =>
      .obj [("error", .str ("Search failed: " ++ e)), ("results", .arr [])]

/-! ## Agent role configurations -/

/-- A sub-agent configuration dictionary as constructed in `main.py`
(the source dictionaries also carry `description` and `prompt` text, free-form
natural language that no claim depends on and that is therefore not modelled).
-/
structure SubAgent where
  name : String
  tools : List String
deriving Repr, DecidableEq

/-- `get_requirements_analyst_subagent` (`main.py`): tools list
`["internet_search"]`. -/
def get_requirements_analyst_subagent : SubAgent :=
  { name := "requirements-analyst", tools := ["internet_search"] }

/-- `get_architecture_agent_subagent` (`main.py`). -/
def get_architecture_agent_subagent : SubAgent :=
  { name := "architecture-agent",
    tools := ["internet_search", "validate_project_structure",
              "update_orchestration_state"] }

/-- `get_frontend_developer_subagent` (`main.py`): empty tools list. -/
def get_frontend_developer_subagent : SubAgent :=
  { name := "frontend-developer", tools := [] }

/-- `get_backend_developer_subagent` (`main.py`): empty tools list. -/
def get_backend_developer_subagent : SubAgent :=
  { name := "backend-developer", tools := [] }

/-- `get_tester_agent_subagent` (`main.py`): empty tools list. -/
def get_tester_agent_subagent : SubAgent :=
  { name := "tester-agent", tools := [] }

/-- `get_devops_agent_subagent` (`main.py`): empty tools list. -/
def get_devops_agent_subagent : SubAgent :=
  { name := "devops-agent", tools := [] }

/-- The six fixed sub-agent configurations, in the order they are assembled
in `create_software_dev_agent`. -/
def all_subagents : List SubAgent :=
  [get_requirements_analyst_subagent, get_architecture_agent_subagent,
   get_frontend_developer_subagent, get_backend_developer_subagent,
   get_tester_agent_subagent, get_devops_agent_subagent]

namespace RequirementsAnalystAgent

/-- `RequirementsAnalystAgent.get_default_tools`
(`src/agents/requirements_analyst.py`, lines 34-47). -/
def get_default_tools : List String :=
  ["internet_search", "write_file", "read_file", "edit_file", "write_todos"]

end RequirementsAnalystAgent

namespace ArchitectureAgent

/-- `ArchitectureAgent.get_default_tools`
(`src/ai_software_development/agents/architecture_agent.py`, lines 34-49). -/
def get_default_tools : List String :=
  ["internet_search", "validate_project_structure",
   "update_orchestration_state", "write_file", "read_file", "edit_file",
   "write_todos"]

end ArchitectureAgent

namespace FrontendDeveloperAgent

/-- `FrontendDeveloperAgent.get_default_tools`
(`src/ai_software_development/agents/frontend_developer.py`). -/
def get_default_tools : List String :=
  ["write_file", "read_file", "edit_file", "write_todos"]

end FrontendDeveloperAgent

namespace BackendDeveloperAgent

/-- `BackendDeveloperAgent.get_default_tools`
(`src/agents/backend_developer.py`). -/
def get_default_tools : List String :=
  ["write_file", "read_file", "edit_file", "write_todos"]

end BackendDeveloperAgent

namespace TesterAgent

/-- `TesterAgent.get_default_tools`
(`src/ai_software_development/agents/tester_agent.py`). -/
def get_default_tools : List String :=
  ["write_file", "read_file", "edit_file", "write_todos"]

end TesterAgent

namespace DevOpsAgent

/-- `DevOpsAgent.get_default_tools`
(`src/ai_software_development/agents/devops_agent.py`). -/
def get_default_tools : List String :=
  ["write_file", "read_file", "edit_file", "write_todos"]

end DevOpsAgent

/-! ## Agent factory (`create_software_dev_agent`) -/

/-- The configuration a successful `create_software_dev_agent` call hands to
the external `create_deep_agent` capability and `with_config`
(`src/main.py`, lines 82-137).  Model/callback/memory wiring is external and
not modelled; the claims concern only the recursion-limit guard and the
assembled configuration. -/
structure ConfiguredAgent where
  tools : List String
  subagents : List SubAgent
  recursion_limit : Int
  project_size : String
deriving Repr, DecidableEq

/-- Shallow embedding of `create_software_dev_agent` (`src/main.py`,
lines 82-137; the guard is identical at `main.py` lines 286-287).  The
function first checks `recursion_limit <= 0` and raises
`ValueError("Recursion limit must be positive")` before constructing
anything; otherwise it assembles the supervisor tool list and the six
sub-agent configurations and builds the agent.  The external
`create_deep_agent` call is modelled as succeeding. -/
def create_software_dev_agent (project_size : String)
    (recursion_limit : Int) : Except String ConfiguredAgent :=
  if recursion_limit ≤ 0 then .error "Recursion limit must be positive"
  else
    .ok { tools := ["internet_search", "validate_project_structure",
                    "update_orchestration_state"],
          subagents := all_subagents,
          recursion_limit := recursion_limit,
          project_size := project_size }

example :
    update_orchestration_state .absent "REQ" (some [("requirements", .bool true)])
      (some [.str "i1"]) none =
    some [("phase", .str "REQ"), ("artifacts", .obj [("requirements", .bool true)]),
          ("issues", .arr [.str "i1"]), ("blocked_on", .arr [])] := rfl

example :
    update_orchestration_state
      (.parsed (.obj [("phase", .str "REQ"), ("artifacts", .obj []),
                      ("issues", .arr [.str "x"]), ("blocked_on", .arr [])]))
      "REQ" none (some []) none =
    some [("phase", .str "REQ"), ("artifacts", .obj []),
          ("issues", .arr [.str "x"]), ("blocked_on", .arr [])] := rfl


/-! ## Dictionary lemmas -/

theorem dget_dsetOne_self {V : Type} (d : Dict V) (k : String) (v : V) :
    dget (dsetOne d k v) k = some v := by
  induction d with
  | nil => simp [dsetOne, dget]
  | cons p rest ih =>
    obtain ⟨k', v'⟩ := p
    by_cases h : k' = k
    · simp [dsetOne, dget, h]
    · simp [dsetOne, dget, h, ih]

theorem dget_dsetOne_ne {V : Type} (d : Dict V) (k k' : String) (v : V)
    (h : k' ≠ k) : dget (dsetOne d k v) k' = dget d k' := by
  induction d with
  | nil => simp [dsetOne, dget, Ne.symm h]
  | cons p rest ih =>
    obtain ⟨k₀, v₀⟩ := p
    by_cases hk : k₀ = k
    · simp [dsetOne, dget, hk, Ne.symm h]
    · by_cases hk' : k₀ = k'
      · simp [dsetOne, dget, hk, hk', h]
      · simp [dsetOne, dget, hk, hk', ih]

theorem dsetOne_eq_self_of_dget {V : Type} (d : Dict V) (k : String) (v : V)
    (h : dget d k = some v) : dsetOne d k v = d := by
  induction d with
  | nil => simp [dget] at h
  | cons p rest ih =>
    obtain ⟨k', v'⟩ := p
    by_cases hk : k' = k
    · simp [dget, hk] at h
      simp [dsetOne, hk, h]
    · simp [dget, hk] at h
      simp [dsetOne, hk, ih h]

theorem dupdate_cons {V : Type} (d : Dict V) (p : String × V) (o : Dict V) :
    dupdate d (p :: o) = dupdate (dsetOne d p.1 p.2) o := rfl

theorem dget_dupdate_notKey {V : Type} (d o : Dict V) (k : String)
    (h : hasKey o k = false) : dget (dupdate d o) k = dget d k := by
  induction o generalizing d with
  | nil => rfl
  | cons p rest ih =>
    obtain ⟨k₀, v₀⟩ := p
    simp [hasKey] at h
    rw [dupdate_cons, ih _ h.2, dget_dsetOne_ne _ _ _ _ (fun hh => h.1 hh.symm)]

theorem dupdate_idem {V : Type} (d o : Dict V) (h : nodupKeys o = true) :
    dupdate (dupdate d o) o = dupdate d o := by
  induction o generalizing d with
  | nil => rfl
  | cons p rest ih =>
    obtain ⟨k₀, v₀⟩ := p
    simp [nodupKeys] at h
    rw [dupdate_cons, dupdate_cons]
    have hget : dget (dupdate (dsetOne d k₀ v₀) rest) k₀ = some v₀ := by
      rw [dget_dupdate_notKey _ _ _ h.1, dget_dsetOne_self]
    rw [dsetOne_eq_self_of_dget _ _ _ hget]
    exact ih _ h.2

theorem dget_dupdate_mem {V : Type} (d o : Dict V) (k : String) (v : V)
    (hnd : nodupKeys o = true) (h : dget o k = some v) :
    dget (dupdate d o) k = some v := by
  induction o generalizing d with
  | nil => simp [dget] at h
  | cons p rest ih =>
    obtain ⟨k₀, v₀⟩ := p
    simp [nodupKeys] at hnd
    rw [dupdate_cons]
    by_cases hk : k₀ = k
    · simp [dget, hk] at h
      subst hk
      rw [dget_dupdate_notKey _ _ _ hnd.1]
      show dget (dsetOne d k₀ v₀) k₀ = some v
      rw [dget_dsetOne_self, h]
    · simp [dget, hk] at h
      exact ih _ hnd.2 h

/-! ## Characterisation of `update_orchestration_state` -/

theorem nodupKeys_coreKeys (pv av iv bv : JVal) :
    nodupKeys [("phase", pv), ("artifacts", av), ("issues", iv),
               ("blocked_on", bv)] = true := rfl

/-- `update_orchestration_state` on a file that parses to a JSON object whose
`artifacts` entry is an object (or is absent): the result is the loaded state
with the four managed keys overwritten. -/
theorem update_parsed_obj (st : Dict JVal) (p : String)
    (a : Option (Dict JVal)) (i b : Option (List JVal)) (A : Dict JVal)
    (hA : dgetD st "artifacts" (.obj []) = .obj A) :
    update_orchestration_state (.parsed (.obj st)) p a i b =
      some (dupdate st
        [("phase", .str p), ("artifacts", .obj (mergedArtifacts A a)),
         ("issues", replacedList st "issues" i),
         ("blocked_on", replacedList st "blocked_on" b)]) := by
  unfold update_orchestration_state
  dsimp only []
  rw [hA]

/-- Every successful call has this shape: a loaded state `st` (empty for an
absent or corrupt file) whose `artifacts` entry defaults to an object `A`,
with the four managed keys overwritten on top of `st`. -/
theorem update_success_shape (file : FileContent) (p : String)
    (a : Option (Dict JVal)) (i b : Option (List JVal)) (s : Dict JVal)
    (h : update_orchestration_state file p a i b = some s) :
    ∃ st A, dgetD st "artifacts" (.obj []) = .obj A ∧
      s = dupdate st
        [("phase", .str p), ("artifacts", .obj (mergedArtifacts A a)),
         ("issues", replacedList st "issues" i),
         ("blocked_on", replacedList st "blocked_on" b)] := by
  cases file with
  | absent =>
    injection h with hval
    exact ⟨[], [], rfl, hval.symm⟩
  | corrupt =>
    injection h with hval
    exact ⟨[], [], rfl, hval.symm⟩
  | parsed v =>
    cases v with
    | obj st =>
      revert h
      unfold update_orchestration_state
      dsimp only []
      cases hA : dgetD st "artifacts" (JVal.obj []) <;> intro h
      case obj A =>
        injection h with hval
        exact ⟨st, A, hA, hval.symm⟩
      all_goals exact Option.noConfusion h
    | null => exact Option.noConfusion h
    | bool _ => exact Option.noConfusion h
    | num _ => exact Option.noConfusion h
    | str _ => exact Option.noConfusion h
    | arr _ => exact Option.noConfusion h

/-- Lookup of the four managed keys in the written state. -/
theorem dget_core (st : Dict JVal) (pv av iv bv : JVal) :
    dget (dupdate st [("phase", pv), ("artifacts", av), ("issues", iv),
                      ("blocked_on", bv)]) "phase" = some pv ∧
    dget (dupdate st [("phase", pv), ("artifacts", av), ("issues", iv),
                      ("blocked_on", bv)]) "artifacts" = some av ∧
    dget (dupdate st [("phase", pv), ("artifacts", av), ("issues", iv),
                      ("blocked_on", bv)]) "issues" = some iv ∧
    dget (dupdate st [("phase", pv), ("artifacts", av), ("issues", iv),
                      ("blocked_on", bv)]) "blocked_on" = some bv := by
  have hshape : dupdate st [("phase", pv), ("artifacts", av), ("issues", iv),
      ("blocked_on", bv)] =
      dsetOne (dsetOne (dsetOne (dsetOne st "phase" pv) "artifacts" av)
        "issues" iv) "blocked_on" bv := rfl
  refine ⟨?_, ?_, ?_, ?_⟩ <;> rw [hshape]
  · rw [dget_dsetOne_ne _ _ _ _ (by decide), dget_dsetOne_ne _ _ _ _ (by decide),
        dget_dsetOne_ne _ _ _ _ (by decide), dget_dsetOne_self]
  · rw [dget_dsetOne_ne _ _ _ _ (by decide), dget_dsetOne_ne _ _ _ _ (by decide),
        dget_dsetOne_self]
  · rw [dget_dsetOne_ne _ _ _ _ (by decide), dget_dsetOne_self]
  · rw [dget_dsetOne_self]

/-- Lookup of any other key in the written state is unchanged. -/
theorem dget_core_frame (st : Dict JVal) (pv av iv bv : JVal) (k : String)
    (h1 : k ≠ "phase") (h2 : k ≠ "artifacts") (h3 : k ≠ "issues")
    (h4 : k ≠ "blocked_on") :
    dget (dupdate st [("phase", pv), ("artifacts", av), ("issues", iv),
                      ("blocked_on", bv)]) k = dget st k := by
  have hshape : dupdate st [("phase", pv), ("artifacts", av), ("issues", iv),
      ("blocked_on", bv)] =
      dsetOne (dsetOne (dsetOne (dsetOne st "phase" pv) "artifacts" av)
        "issues" iv) "blocked_on" bv := rfl
  rw [hshape, dget_dsetOne_ne _ _ _ _ h4, dget_dsetOne_ne _ _ _ _ h3,
      dget_dsetOne_ne _ _ _ _ h2, dget_dsetOne_ne _ _ _ _ h1]

/-! ## Claim theorems -/

/-- Claim C3: if the persisted state file is absent or its content fails to
parse, `update_orchestration_state` does not raise: it behaves exactly as it
does on a fresh empty state (empty object: empty artifacts map, no issues, no
blockers) and succeeds, returning a new state. -/
theorem claim_C3 (p : String) (a : Option (Dict JVal))
    (i b : Option (List JVal)) :
    update_orchestration_state .corrupt p a i b =
      update_orchestration_state .absent p a i b ∧
    update_orchestration_state .corrupt p a i b =
      update_orchestration_state (.parsed (.obj [])) p a i b ∧
    ∃ s, update_orchestration_state .corrupt p a i b = some s :=
  ⟨rfl, rfl, ⟨_, rfl⟩⟩

/-- Claim C4: for every known project size, `validate_project_structure`
reports `missing` as exactly the expected paths that do not exist, in the
declared order of the required-path table (a sublist of `expected`), and
`valid` is true if and only if `missing` is empty. -/
theorem claim_C4 (fs_exists : String → Bool) (size : String)
    (expected : List String)
    (h : dget required_files size = some expected) :
    validate_project_structure fs_exists size =
      .report ((expected.filter (fun q => !fs_exists q)).length == 0) expected
        (expected.filter (fun q => !fs_exists q)) size ∧
    (∀ path, path ∈ expected.filter (fun q => !fs_exists q) ↔
      (path ∈ expected ∧ fs_exists path = false)) ∧
    (expected.filter (fun q => !fs_exists q)).Sublist expected ∧
    (((expected.filter (fun q => !fs_exists q)).length == 0) = true ↔
      expected.filter (fun q => !fs_exists q) = []) := by
  refine ⟨?_, ?_, List.filter_sublist _, ?_⟩
  · unfold validate_project_structure
    rw [h]
  · intro path
    simp [List.mem_filter]
  · simp [List.length_eq_zero]

theorem claim_C4_witness :
    dget required_files "small" =
      some ["README.md", "TODO.md", "docs/architecture.md", "openapi.yaml",
            "Dockerfile"] ∧
    validate_project_structure (fun _ => false) "small" =
      .report (((["README.md", "TODO.md", "docs/architecture.md",
                  "openapi.yaml", "Dockerfile"].filter
                  (fun q => !(fun _ => false) q)).length == 0))
        ["README.md", "TODO.md", "docs/architecture.md", "openapi.yaml",
         "Dockerfile"]
        (["README.md", "TODO.md", "docs/architecture.md", "openapi.yaml",
          "Dockerfile"].filter (fun q => !(fun _ => false) q)) "small" ∧
    ("README.md" ∈ ["README.md", "TODO.md", "docs/architecture.md",
        "openapi.yaml", "Dockerfile"].filter (fun q => !(fun _ => false) q) ↔
      ("README.md" ∈ ["README.md", "TODO.md", "docs/architecture.md",
          "openapi.yaml", "Dockerfile"] ∧
        (fun _ => false) "README.md" = false)) ∧
    (["README.md", "TODO.md", "docs/architecture.md", "openapi.yaml",
      "Dockerfile"].filter (fun q => !(fun _ => false) q)).Sublist
      ["README.md", "TODO.md", "docs/architecture.md", "openapi.yaml",
       "Dockerfile"] ∧
    (((["README.md", "TODO.md", "docs/architecture.md", "openapi.yaml",
        "Dockerfile"].filter (fun q => !(fun _ => false) q)).length == 0) =
        true ↔
      ["README.md", "TODO.md", "docs/architecture.md", "openapi.yaml",
       "Dockerfile"].filter (fun q => !(fun _ => false) q) = []) :=
  ⟨rfl, (claim_C4 (fun _ => false) "small" _ rfl).1,
   (claim_C4 (fun _ => false) "small" _ rfl).2.1 "README.md",
   (claim_C4 (fun _ => false) "small" _ rfl).2.2.1,
   (claim_C4 (fun _ => false) "small" _ rfl).2.2.2⟩

/-- Claim C5: for every project size string outside the required-path table,
`validate_project_structure` returns `valid = false` with an error message
that embeds the unknown value, and the result does not depend on the
filesystem (no filesystem access in that branch). -/
theorem claim_C5 (size : String) (h : dget required_files size = none)
    (fs_exists fs_exists' : String → Bool) :
    validate_project_structure fs_exists size =
      .unknownSize false ("Unknown project size: " ++ size) ∧
    validate_project_structure fs_exists size =
      validate_project_structure fs_exists' size := by
  unfold validate_project_structure
  rw [h]
  exact ⟨rfl, rfl⟩

theorem claim_C5_witness :
    dget required_files "tiny" = none ∧
    (validate_project_structure (fun _ => true) "tiny" =
      .unknownSize false ("Unknown project size: " ++ "tiny") ∧
    validate_project_structure (fun _ => true) "tiny" =
      validate_project_structure (fun _ => false) "tiny") :=
  ⟨rfl, claim_C5 "tiny" rfl (fun _ => true) (fun _ => false)⟩

/-- Claim C6: `internet_search` never lets a failure escape as an exception
(the embedding is a total function into result values).  With the credential
absent (or empty, which Python treats as falsy) it returns an error result
with empty `results` whose message names the required credential
`TAVILY_API_KEY` and says it is required; on any provider failure it returns
`{"error": "Search failed: <message>", "results": []}`. -/
theorem claim_C6 :
    (∀ imp ps, internet_search none imp ps =
      .obj [("error",
             .str "Search failed: TAVILY_API_KEY environment variable is required"),
            ("results", .arr [])]) ∧
    (∀ imp ps, internet_search (some "") imp ps =
      .obj [("error",
             .str "Search failed: TAVILY_API_KEY environment variable is required"),
            ("results", .arr [])]) ∧
    ("Search failed: TAVILY_API_KEY environment variable is required" =
      "Search failed: " ++ "TAVILY_API_KEY" ++
        " environment variable is required") ∧
    (∀ key msg, key ≠ "" → internet_search (some key) none (.error msg) =
      .obj [("error", .str ("Search failed: " ++ msg)),
            ("results", .arr [])]) := by
  refine ⟨fun imp ps => rfl, fun imp ps => rfl, rfl, fun key msg hk => ?_⟩
  unfold internet_search get_tavily_client
  dsimp only []
  rw [if_neg hk]

theorem claim_C6_witness :
    ("api-key-123" : String) ≠ "" ∧
    internet_search (some "api-key-123") none (.error "rate limited") =
      .obj [("error", .str ("Search failed: " ++ "rate limited")),
            ("results", .arr [])] :=
  ⟨by decide, claim_C6.2.2.2 "api-key-123" "rate limited" (by decide)⟩

/-- Claim C7: among the six fixed agent roles, exactly the
requirements-analyst and architecture roles carry `internet_search`; the
frontend, backend, tester and devops roles do not.  This holds both for the
sub-agent configurations assembled in `main.py` and for the class-based
default tool lists. -/
theorem claim_C7 :
    (all_subagents.filter
        (fun a => a.tools.contains "internet_search")).map SubAgent.name =
      ["requirements-analyst", "architecture-agent"] ∧
    (∀ a ∈ all_subagents, "internet_search" ∈ a.tools ↔
      (a.name = "requirements-analyst" ∨ a.name = "architecture-agent")) ∧
    "internet_search" ∈ RequirementsAnalystAgent.get_default_tools ∧
    "internet_search" ∈ ArchitectureAgent.get_default_tools ∧
    "internet_search" ∉ FrontendDeveloperAgent.get_default_tools ∧
    "internet_search" ∉ BackendDeveloperAgent.get_default_tools ∧
    "internet_search" ∉ TesterAgent.get_default_tools ∧
    "internet_search" ∉ DevOpsAgent.get_default_tools := by
  decide

/-- Claim C8: `create_software_dev_agent` raises the configuration error
`"Recursion limit must be positive"` for every `recursion_limit <= 0`, before
any agent is constructed; for every positive `recursion_limit` the check
passes and the agent configuration is assembled with that limit. -/
theorem claim_C8 (project_size : String) (recursion_limit : Int) :
    (recursion_limit ≤ 0 →
      create_software_dev_agent project_size recursion_limit =
        .error "Recursion limit must be positive") ∧
    (0 < recursion_limit →
      create_software_dev_agent project_size recursion_limit =
        .ok { tools := ["internet_search", "validate_project_structure",
                        "update_orchestration_state"],
              subagents := all_subagents,
              recursion_limit := recursion_limit,
              project_size := project_size }) := by
  constructor
  · intro h
    unfold create_software_dev_agent
    rw [if_pos h]
  · intro h
    unfold create_software_dev_agent
    rw [if_neg (by omega : ¬ recursion_limit ≤ 0)]

theorem claim_C8_witness :
    ((-3 : Int) ≤ 0 ∧
      create_software_dev_agent "small" (-3) =
        .error "Recursion limit must be positive") ∧
    ((0 : Int) < 1000 ∧
      create_software_dev_agent "small" 1000 =
        .ok { tools := ["internet_search", "validate_project_structure",
                        "update_orchestration_state"],
              subagents := all_subagents,
              recursion_limit := 1000,
              project_size := "small" }) :=
  ⟨⟨by decide, (claim_C8 "small" (-3)).1 (by decide)⟩,
   ⟨by decide, (claim_C8 "small" 1000).2 (by decide)⟩⟩

/-- Merging a provided delta: the truthiness test in the code
(`if artifacts:`) skips the merge for an empty delta, but merging an empty
dict is a no-op, so the merged result is `dupdate` in both cases. -/
theorem mergedArtifacts_some (A D : Dict JVal) :
    mergedArtifacts A (some D) = dupdate A D := by
  cases D with
  | nil => rfl
  | cons d ds => rfl

theorem mergedArtifacts_idem (A : Dict JVal) (art : Option (Dict JVal))
    (hnd : nodupKeys (art.getD []) = true) :
    mergedArtifacts (mergedArtifacts A art) art = mergedArtifacts A art := by
  cases art with
  | none => rfl
  | some D =>
    rw [mergedArtifacts_some, mergedArtifacts_some]
    exact dupdate_idem _ _ hnd

theorem replacedList_stable (s' st : Dict JVal) (key : String)
    (arg : Option (List JVal))
    (hk : dget s' key = some (replacedList st key arg)) :
    replacedList s' key arg = replacedList st key arg := by
  cases arg with
  | none =>
    have hd : dgetD s' key (.arr []) = replacedList st key none := by
      unfold dgetD
      rw [hk]
      rfl
    exact hd
  | some l =>
    cases l with
    | nil =>
      have hd : dgetD s' key (.arr []) = replacedList st key (some []) := by
        unfold dgetD
        rw [hk]
        rfl
      exact hd
    | cons x xs => rfl

/-- Claim C1 (amended): a provided, non-empty `issues` list replaces the
stored issues sequence; an omitted `issues` argument, or an explicitly
provided empty list, preserves the stored sequence (the code tests Python
truthiness, `issues or state.get("issues", [])`, so the empty list behaves
like an omitted argument and does not clear).  The same holds independently
for `blocked_on`. -/
theorem claim_C1 (st : Dict JVal) (p : String) (art : Option (Dict JVal))
    (iss blk : Option (List JVal)) (s : Dict JVal)
    (h : update_orchestration_state (.parsed (.obj st)) p art iss blk =
      some s) :
    (∀ l, iss = some l → l ≠ [] → dget s "issues" = some (.arr l)) ∧
    ((iss = none ∨ iss = some []) →
      dget s "issues" = some (dgetD st "issues" (.arr []))) ∧
    (∀ l, blk = some l → l ≠ [] → dget s "blocked_on" = some (.arr l)) ∧
    ((blk = none ∨ blk = some []) →
      dget s "blocked_on" = some (dgetD st "blocked_on" (.arr []))) := by
  revert h
  unfold update_orchestration_state
  dsimp only []
  cases hA : dgetD st "artifacts" (JVal.obj []) <;> intro h
  case obj A =>
    injection h with hval
    have hcore := dget_core st (.str p) (.obj (mergedArtifacts A art))
      (replacedList st "issues" iss) (replacedList st "blocked_on" blk)
    rw [← hval]
    refine ⟨?_, ?_, ?_, ?_⟩
    · intro l hl hne
      subst hl
      cases l with
      | nil => exact absurd rfl hne
      | cons x xs => exact hcore.2.2.1
    · intro hcase
      rw [hcore.2.2.1]
      rcases hcase with hc | hc <;> subst hc <;> rfl
    · intro l hl hne
      subst hl
      cases l with
      | nil => exact absurd rfl hne
      | cons x xs => exact hcore.2.2.2
    · intro hcase
      rw [hcore.2.2.2]
      rcases hcase with hc | hc <;> subst hc <;> rfl
  all_goals exact Option.noConfusion h

theorem claim_C1_witness :
    update_orchestration_state
        (.parsed (.obj [("issues", JVal.arr [JVal.str "old"]),
                        ("blocked_on", JVal.arr [JVal.str "w"])]))
        "REQ" none (some [JVal.str "new"]) (some []) =
      some [("issues", JVal.arr [JVal.str "new"]),
            ("blocked_on", JVal.arr [JVal.str "w"]),
            ("phase", JVal.str "REQ"), ("artifacts", JVal.obj [])] ∧
    dget [("issues", JVal.arr [JVal.str "new"]),
          ("blocked_on", JVal.arr [JVal.str "w"]),
          ("phase", JVal.str "REQ"), ("artifacts", JVal.obj [])] "issues" =
      some (.arr [JVal.str "new"]) ∧
    dget [("issues", JVal.arr [JVal.str "new"]),
          ("blocked_on", JVal.arr [JVal.str "w"]),
          ("phase", JVal.str "REQ"), ("artifacts", JVal.obj [])]
        "blocked_on" =
      some (dgetD [("issues", JVal.arr [JVal.str "old"]),
                   ("blocked_on", JVal.arr [JVal.str "w"])] "blocked_on"
            (.arr [])) :=
  ⟨rfl,
   (claim_C1 [("issues", JVal.arr [JVal.str "old"]),
              ("blocked_on", JVal.arr [JVal.str "w"])]
      "REQ" none (some [JVal.str "new"]) (some [])
      [("issues", JVal.arr [JVal.str "new"]),
       ("blocked_on", JVal.arr [JVal.str "w"]),
       ("phase", JVal.str "REQ"), ("artifacts", JVal.obj [])] rfl).1
     [JVal.str "new"] rfl (fun hh => List.noConfusion hh),
   (claim_C1 [("issues", JVal.arr [JVal.str "old"]),
              ("blocked_on", JVal.arr [JVal.str "w"])]
      "REQ" none (some [JVal.str "new"]) (some [])
      [("issues", JVal.arr [JVal.str "new"]),
       ("blocked_on", JVal.arr [JVal.str "w"]),
       ("phase", JVal.str "REQ"), ("artifacts", JVal.obj [])] rfl).2.2.2
     (Or.inr rfl)⟩

/-- Claim C1 as frozen is false on the code: starting from a persisted state
whose issues are `["x"]`, an update that explicitly passes `issues = []`
leaves the stored issues at `["x"]` instead of clearing them to `[]`, because
`[]` is falsy in `issues or state.get("issues", [])`. -/
theorem claim_C1_counterexample :
    update_orchestration_state
        (.parsed (.obj [("phase", JVal.str "REQ"), ("artifacts", JVal.obj []),
                        ("issues", JVal.arr [JVal.str "x"]),
                        ("blocked_on", JVal.arr [])]))
        "REQ" none (some []) none =
      some [("phase", JVal.str "REQ"), ("artifacts", JVal.obj []),
            ("issues", JVal.arr [JVal.str "x"]),
            ("blocked_on", JVal.arr [])] ∧
    JVal.arr [JVal.str "x"] ≠ JVal.arr [] :=
  ⟨rfl, fun hh => List.noConfusion (JVal.arr.inj hh)⟩

/-- Claim C2: the artifacts delta is merged key-by-key into the stored
artifacts object: an omitted delta preserves the object verbatim, a provided
delta `D` yields `dupdate A D`, keys absent from the delta keep their stored
value (so a flag set true is never reset by an update not mentioning it), and
every key of the delta ends up with the delta's value.  Consequently two
successive updates with `{a: true}` then `{b: true}` leave both flags true,
as the closing concrete conjuncts state. -/
theorem claim_C2 (st : Dict JVal) (p : String) (art : Option (Dict JVal))
    (iss blk : Option (List JVal)) (A : Dict JVal) (s : Dict JVal)
    (hA : dgetD st "artifacts" (.obj []) = .obj A)
    (h : update_orchestration_state (.parsed (.obj st)) p art iss blk =
      some s) :
    (art = none → dget s "artifacts" = some (.obj A)) ∧
    (∀ D, art = some D → dget s "artifacts" = some (.obj (dupdate A D))) ∧
    (∀ D k, art = some D → hasKey D k = false →
      dget (dupdate A D) k = dget A k) ∧
    (∀ D k v, art = some D → nodupKeys D = true → dget D k = some v →
      dget (dupdate A D) k = some v) ∧
    update_orchestration_state .absent "P" (some [("a", JVal.bool true)])
        none none =
      some [("phase", JVal.str "P"),
            ("artifacts", JVal.obj [("a", JVal.bool true)]),
            ("issues", JVal.arr []), ("blocked_on", JVal.arr [])] ∧
    update_orchestration_state
        (persistedAfter
          [("phase", JVal.str "P"),
           ("artifacts", JVal.obj [("a", JVal.bool true)]),
           ("issues", JVal.arr []), ("blocked_on", JVal.arr [])])
        "P" (some [("b", JVal.bool true)]) none none =
      some [("phase", JVal.str "P"),
            ("artifacts", JVal.obj [("a", JVal.bool true),
                                    ("b", JVal.bool true)]),
            ("issues", JVal.arr []), ("blocked_on", JVal.arr [])] := by
  rw [update_parsed_obj st p art iss blk A hA] at h
  injection h with hs
  have hcore := dget_core st (.str p) (.obj (mergedArtifacts A art))
    (replacedList st "issues" iss) (replacedList st "blocked_on" blk)
  refine ⟨?_, ?_, ?_, ?_, rfl, rfl⟩
  · intro hart
    subst hart
    rw [← hs]
    exact hcore.2.1
  · intro D hart
    subst hart
    rw [← hs, hcore.2.1, mergedArtifacts_some]
  · intro D k hart hk
    exact dget_dupdate_notKey A D k hk
  · intro D k v hart hnd hv
    exact dget_dupdate_mem A D k v hnd hv

theorem claim_C2_witness :
    dgetD [("artifacts", JVal.obj [("x", JVal.bool true)])] "artifacts"
        (.obj []) =
      .obj [("x", JVal.bool true)] ∧
    update_orchestration_state
        (.parsed (.obj [("artifacts", JVal.obj [("x", JVal.bool true)])]))
        "P" (some [("y", JVal.bool true)]) none none =
      some [("artifacts", JVal.obj [("x", JVal.bool true),
                                    ("y", JVal.bool true)]),
            ("phase", JVal.str "P"), ("issues", JVal.arr []),
            ("blocked_on", JVal.arr [])] ∧
    dget [("artifacts", JVal.obj [("x", JVal.bool true),
                                  ("y", JVal.bool true)]),
          ("phase", JVal.str "P"), ("issues", JVal.arr []),
          ("blocked_on", JVal.arr [])] "artifacts" =
      some (.obj (dupdate [("x", JVal.bool true)] [("y", JVal.bool true)])) ∧
    dget (dupdate [("x", JVal.bool true)] [("y", JVal.bool true)]) "x" =
      dget [("x", JVal.bool true)] "x" ∧
    dget (dupdate [("x", JVal.bool true)] [("y", JVal.bool true)]) "y" =
      some (JVal.bool true) :=
  ⟨rfl, rfl,
   (claim_C2 [("artifacts", JVal.obj [("x", JVal.bool true)])]
      "P" (some [("y", JVal.bool true)]) none none
      [("x", JVal.bool true)]
      [("artifacts", JVal.obj [("x", JVal.bool true), ("y", JVal.bool true)]),
       ("phase", JVal.str "P"), ("issues", JVal.arr []),
       ("blocked_on", JVal.arr [])] rfl rfl).2.1 _ rfl,
   (claim_C2 [("artifacts", JVal.obj [("x", JVal.bool true)])]
      "P" (some [("y", JVal.bool true)]) none none
      [("x", JVal.bool true)]
      [("artifacts", JVal.obj [("x", JVal.bool true), ("y", JVal.bool true)]),
       ("phase", JVal.str "P"), ("issues", JVal.arr []),
       ("blocked_on", JVal.arr [])] rfl rfl).2.2.1 _ "x" rfl rfl,
   (claim_C2 [("artifacts", JVal.obj [("x", JVal.bool true)])]
      "P" (some [("y", JVal.bool true)]) none none
      [("x", JVal.bool true)]
      [("artifacts", JVal.obj [("x", JVal.bool true), ("y", JVal.bool true)]),
       ("phase", JVal.str "P"), ("issues", JVal.arr []),
       ("blocked_on", JVal.arr [])] rfl rfl).2.2.2.1 _ "y" (JVal.bool true)
     rfl rfl rfl⟩

/-- Claim C9: `update_orchestration_state` is idempotent: starting from any
persisted file content, if one call with given arguments succeeds with state
`s` (which is then persisted), repeating the call with identical arguments on
the persisted result yields the same state `s` again.  The hypothesis that
the artifacts delta has pairwise-distinct keys is automatic for arguments
arriving from Python, whose dictionaries cannot repeat keys. -/
theorem claim_C9 (file : FileContent) (p : String) (art : Option (Dict JVal))
    (iss blk : Option (List JVal)) (s : Dict JVal)
    (hnd : nodupKeys (art.getD []) = true)
    (h : update_orchestration_state file p art iss blk = some s) :
    update_orchestration_state (persistedAfter s) p art iss blk = some s := by
  obtain ⟨st, A, hA, hs⟩ := update_success_shape file p art iss blk s h
  have hcore := dget_core st (.str p) (.obj (mergedArtifacts A art))
    (replacedList st "issues" iss) (replacedList st "blocked_on" blk)
  have hA2 : dgetD s "artifacts" (.obj []) = .obj (mergedArtifacts A art) := by
    unfold dgetD
    rw [hs, hcore.2.1]
    rfl
  show update_orchestration_state (.parsed (.obj s)) p art iss blk = some s
  rw [update_parsed_obj s p art iss blk (mergedArtifacts A art) hA2]
  have hiss : replacedList s "issues" iss = replacedList st "issues" iss := by
    apply replacedList_stable
    rw [hs, hcore.2.2.1]
  have hblk : replacedList s "blocked_on" blk =
      replacedList st "blocked_on" blk := by
    apply replacedList_stable
    rw [hs, hcore.2.2.2]
  rw [mergedArtifacts_idem A art hnd, hiss, hblk, hs,
      dupdate_idem st _ (nodupKeys_coreKeys _ _ _ _)]

theorem claim_C9_witness :
    nodupKeys ((some [("requirements", JVal.bool true)] :
        Option (Dict JVal)).getD []) = true ∧
    update_orchestration_state .absent "REQ"
        (some [("requirements", JVal.bool true)]) none none =
      some [("phase", JVal.str "REQ"),
            ("artifacts", JVal.obj [("requirements", JVal.bool true)]),
            ("issues", JVal.arr []), ("blocked_on", JVal.arr [])] ∧
    update_orchestration_state
        (persistedAfter
          [("phase", JVal.str "REQ"),
           ("artifacts", JVal.obj [("requirements", JVal.bool true)]),
           ("issues", JVal.arr []), ("blocked_on", JVal.arr [])])
        "REQ" (some [("requirements", JVal.bool true)]) none none =
      some [("phase", JVal.str "REQ"),
            ("artifacts", JVal.obj [("requirements", JVal.bool true)]),
            ("issues", JVal.arr []), ("blocked_on", JVal.arr [])] :=
  ⟨rfl, rfl,
   claim_C9 .absent "REQ" (some [("requirements", JVal.bool true)]) none none
     _ rfl rfl⟩

/-- Claim C10: when the persisted file parses to a JSON object, a successful
`update_orchestration_state` call leaves every top-level key other than
`phase`, `artifacts`, `issues` and `blocked_on` unchanged: looking up such a
key in the returned state (which, by `persistedAfter`, is exactly what is
written back to the file) gives the same binding as in the stored object. -/
theorem claim_C10 (st : Dict JVal) (p : String) (art : Option (Dict JVal))
    (iss blk : Option (List JVal)) (s : Dict JVal)
    (h : update_orchestration_state (.parsed (.obj st)) p art iss blk =
      some s)
    (k : String) (hk1 : k ≠ "phase") (hk2 : k ≠ "artifacts")
    (hk3 : k ≠ "issues") (hk4 : k ≠ "blocked_on") :
    dget s k = dget st k := by
  revert h
  unfold update_orchestration_state
  dsimp only []
  cases hA : dgetD st "artifacts" (JVal.obj []) <;> intro h
  case obj A =>
    injection h with hval
    rw [← hval]
    exact dget_core_frame st _ _ _ _ k hk1 hk2 hk3 hk4
  all_goals exact Option.noConfusion h

theorem claim_C10_witness :
    update_orchestration_state
        (.parsed (.obj [("version", JVal.num 2), ("phase", JVal.str "REQ")]))
        "ARCH" none none none =
      some [("version", JVal.num 2), ("phase", JVal.str "ARCH"),
            ("artifacts", JVal.obj []), ("issues", JVal.arr []),
            ("blocked_on", JVal.arr [])] ∧
    dget [("version", JVal.num 2), ("phase", JVal.str "ARCH"),
          ("artifacts", JVal.obj []), ("issues", JVal.arr []),
          ("blocked_on", JVal.arr [])] "version" =
      dget [("version", JVal.num 2), ("phase", JVal.str "REQ")] "version" :=
  ⟨rfl,
   claim_C10 [("version", JVal.num 2), ("phase", JVal.str "REQ")]
     "ARCH" none none none
     [("version", JVal.num 2), ("phase", JVal.str "ARCH"),
      ("artifacts", JVal.obj []), ("issues", JVal.arr []),
      ("blocked_on", JVal.arr [])] rfl "version" (by decide) (by decide)
     (by decide) (by decide)⟩
